import Mathlib

/-!
Verification of the algolia-rs client library: a shallow embedding of the
host resolver, request dispatcher, error classifier, filter compiler,
scoped-key deriver and query serialization, with theorems checking the
natural-language specification against the code.
-/

namespace AlgoliaRs

/-! ## Errors (src/error.rs)

`BoxError` is `Box<dyn Error>`; we model the concrete error values that the
code actually boxes: a transport (reqwest) error, the decoded
`BadRequestError` / `UnexpectedResponseError` bodies, and a JSON decode
failure. -/

/-- A `reqwest::Error` as seen by `check_response`: the code only inspects
`is_timeout()`; the message is carried opaquely. -/
structure ReqwestError where
  isTimeout : Bool
  msg : String
deriving DecidableEq, Repr

/-- `bad request: {message}` (src/error.rs `BadRequestError`). -/
structure BadRequestError where
  message : String
deriving DecidableEq, Repr

/-- `unexpected response ({status}): {message}` (src/error.rs
`UnexpectedResponseError`, status is a `u16`). -/
structure UnexpectedResponseError where
  message : String
  status : Nat
deriving DecidableEq, Repr

/-- The values the code boxes into `BoxError`. -/
inductive BoxErr where
  | reqwest (e : ReqwestError)
  | badRequest (e : BadRequestError)
  | unexpectedResponse (e : UnexpectedResponseError)
  | jsonDecode (msg : String)
deriving DecidableEq, Repr

/-- `enum Error` of src/error.rs. -/
inductive Error where
  | Configuration (e : BoxErr)
  | Timeout
  | IndexNotFound (name : String)
  | DecodeError (e : BoxErr)
  | RequestError (e : BoxErr)
deriving DecidableEq, Repr

/-! ## JSON bodies and serde decoding

`check_response` decodes error bodies with serde; we model JSON values and
the two derived `Deserialize` impls. A response body that is not valid JSON
at all is modelled as `none`. -/

inductive Json where
  | null
  | bool (b : Bool)
  | num (n : Int)
  | str (s : String)
  | arr (xs : List Json)
  | obj (fields : List (String × Json))

/-- Field lookup in a JSON object (serde allows unknown extra fields). -/
def Json.getField : Json → String → Option Json
  | .obj fields, k => (fields.find? (fun p => p.1 == k)).map Prod.snd
  | _, _ => none

/-- An HTTP response as `check_response` sees it: a status code and a body
that may or may not be valid JSON. -/
structure Response where
  status : Nat
  body : Option Json

/-- serde decode of `BadRequestError { message: String }`. -/
def decodeBadRequestError (body : Option Json) : Except BoxErr BadRequestError :=
  match body with
  | none => .error (.jsonDecode "body was not valid JSON")
  | some j =>
    match j.getField "message" with
    | some (.str m) => .ok { message := m }
    | _ => .error (.jsonDecode "missing or non-string field message")

/-- serde decode of `UnexpectedResponseError { message: String, status: u16 }`. -/
def decodeUnexpectedResponseError (body : Option Json) :
    Except BoxErr UnexpectedResponseError :=
  match body with
  | none => .error (.jsonDecode "body was not valid JSON")
  | some j =>
    match j.getField "message", j.getField "status" with
    | some (.str m), some (.num s) =>
      if 0 ≤ s ∧ s < 65536 then .ok { message := m, status := s.toNat }
      else .error (.jsonDecode "status out of u16 range")
    | _, _ => .error (.jsonDecode "missing message or status field")

/-- `Error::bad_request` (src/error.rs): decode the `{message}` body; box the
decoded error on success and box the decode failure itself otherwise. -/
def Error.bad_request (resp : Response) : Error :=
  match decodeBadRequestError resp.body with
  | .ok e => .RequestError (.badRequest e)
  | .error e => .RequestError e

/-- `Error::unexpected` (src/error.rs): decode the `{message, status}` body;
box the decoded error on success and box the decode failure otherwise. -/
def Error.unexpected (resp : Response) : Error :=
  match decodeUnexpectedResponseError resp.body with
  | .ok e => .RequestError (.unexpectedResponse e)
  | .error e => .RequestError e

/-! ## check_response (src/client.rs) -/

/-- `StatusCode::is_server_error`: 500..=599. -/
def statusIsServerError (s : Nat) : Bool := 500 ≤ s && s ≤ 599

/-- `StatusCode::is_client_error`: 400..=499. -/
def statusIsClientError (s : Nat) : Bool := 400 ≤ s && s ≤ 499

/-- `check_response` (src/client.rs): classify a transport outcome into
retry-next-host (`ok none`), fatal (`error e`) or success (`ok (some resp)`). -/
def check_response (resp : Except ReqwestError Response) (index : Option String) :
    Except Error (Option Response) :=
  match resp with
  | .error e => if e.isTimeout then .ok none else .error (.RequestError (.reqwest e))
  | .ok resp =>
    if statusIsServerError resp.status then .ok none
    else if (match index with
             | some _ => resp.status == 404
             | none => false) then
      .error (.IndexNotFound (index.getD ""))
    else if resp.status == 400 then .error (Error.bad_request resp)
    else if statusIsClientError resp.status then .error (Error.unexpected resp)
    else .ok (some resp)

/-! ## Host resolution (src/host.rs)

`backup_number` is a `NonZeroUsize`, so a stored slot is never zero; we model
it as a subtype. -/

structure Host where
  app_id : String
  dsn : Bool
  backup_number : Option { n : Nat // n ≠ 0 }

/-- `Host::new`. -/
def Host.new (app_id : String) : Host :=
  { app_id := app_id, dsn := false, backup_number := none }

/-- `Host::with_dsn`. -/
def Host.with_dsn (app_id : String) (dsn : Bool) : Host :=
  { app_id := app_id, dsn := dsn, backup_number := none }

/-- `Host::with_backup`: `backup_number.and_then(NonZeroUsize::new)`, so slot
0 collapses to `None`. -/
def Host.with_backup (app_id : String) (backup_number : Option Nat) : Host :=
  { app_id := app_id
    dsn := false
    backup_number :=
      backup_number.bind (fun n => if h : n = 0 then none else some ⟨n, h⟩) }

/-- `Display for Host`: tenant, optional `-dsn`, optional `-<slot>`, then
the fixed domain suffix. -/
def Host.display (h : Host) : String :=
  h.app_id
    ++ (if h.dsn then "-dsn" else "")
    ++ (match h.backup_number with
        | some n => "-" ++ toString n.val
        | none => "")
    ++ ".algolia.net"

/-! ## The dispatcher `Client::retry_with` (src/client.rs)

The per-attempt closure returns `Result<Option<O>>`: `Ok(None)` means
retryable (try the next host), `Ok(Some(o))` is success, `Err(e)` is fatal.
`rand`'s `shuffle` is an external collaborator whose interface contract is
that it permutes the slice in place; we therefore take the shuffled backup
list as a parameter and quantify over all permutations of
`HOST_FALLBACK_LIST`. -/

/-- `HOST_FALLBACK_LIST` (src/lib.rs). -/
def HOST_FALLBACK_LIST : List Nat := [1, 2, 3]

/-- The slot order the loop iterates: `std::iter::once(0).chain(fallback_order)`. -/
def dispatchOrder (shuffled : List Nat) : List Nat := 0 :: shuffled

/-- The URL handed to the per-attempt closure for a given backup slot:
`https://{Host::with_backup(app_id, Some(slot))}/1/{route}`. -/
def attemptUrl (app_id route : String) (slot : Nat) : String :=
  "https://" ++ (Host.with_backup app_id (some slot)).display ++ "/1/" ++ route

/-- The loop body of `retry_with` over the remaining slot order. -/
def retryLoop {O : Type} (g : Nat → Except Error (Option O)) :
    List Nat → Except Error O
  | [] => .error .Timeout
  | h :: t =>
    match g h with
    | .ok none => retryLoop g t
    | .ok (some o) => .ok o
    | .error e => .error e

/-- `Client::retry_with`: iterate slot 0 then the shuffled backups, calling
the per-attempt closure on each built URL. -/
def retry_with {O : Type} (app_id route : String) (shuffled : List Nat)
    (f : String → Except Error (Option O)) : Except Error O :=
  retryLoop (fun slot => f (attemptUrl app_id route slot)) (dispatchOrder shuffled)

/-- The slots on which the loop actually invokes the per-attempt closure: all
slots up to and including the first non-retryable outcome. -/
def attemptedSlots {O : Type} (g : Nat → Except Error (Option O)) :
    List Nat → List Nat
  | [] => []
  | h :: t =>
    match g h with
    | .ok none => h :: attemptedSlots g t
    | _ => [h]

/-! ## String escaping and byte-level helpers

`str::escape_debug` as used by the filter serializers. The model covers the
ASCII range exactly (`\0`, `\t`, `\r`, `\n`, `\\`, the two quotes, and
`\u`-escapes for the remaining control characters); characters at or above
0x80 are treated as printable, which is all the filter grammar and the
claims exercise. -/

def escapeDebugChar (c : Char) : String :=
  let n := c.toNat
  if n == 0 then "\\0"
  else if n == 9 then "\\t"
  else if n == 13 then "\\r"
  else if n == 10 then "\\n"
  else if n == 92 then "\\\\"
  else if n == 39 then "\\" ++ String.singleton (Char.ofNat 39)
  else if n == 34 then "\\\""
  else if n < 32 || n == 127 then
    "\\u\x7b" ++ String.mk (Nat.toDigits 16 n) ++ "\x7d"
  else String.singleton c

def escapeDebug (s : String) : String :=
  String.join (s.data.map escapeDebugChar)

/-- UTF-8 encoding of one character (byte values as `Nat`). -/
def utf8BytesChar (c : Char) : List Nat :=
  let n := c.toNat
  if n < 128 then [n]
  else if n < 2048 then [192 + n / 64, 128 + n % 64]
  else if n < 65536 then [224 + n / 4096, 128 + (n / 64) % 64, 128 + n % 64]
  else [240 + n / 262144, 128 + (n / 4096) % 64, 128 + (n / 64) % 64, 128 + n % 64]

/-- The UTF-8 bytes of a string (`str::as_bytes`). -/
def strBytes (s : String) : List Nat := (s.data.map utf8BytesChar).flatten

/-! ## The filter compiler (src/filter.rs)

Display impls return `fmt::Result`; we model them as `Except Unit String`
so that the one fallible serializer (`ScoredFacetFilter`) propagates. The
floating-point `Number` variants (`F32`/`F64`) are omitted from the model;
no claim touches them. -/

/-- The integer variants of `enum Number`; each renders in its natural
decimal form. -/
inductive Number where
  | u8 (n : Nat)
  | u16 (n : Nat)
  | u32 (n : Nat)
  | i8 (n : Int)
  | i16 (n : Int)
  | i32 (n : Int)
  | i64 (n : Int)
  | isize (n : Int)
deriving DecidableEq, Repr

def Number.display : Number → String
  | .u8 n => toString n
  | .u16 n => toString n
  | .u32 n => toString n
  | .i8 n => toString n
  | .i16 n => toString n
  | .i32 n => toString n
  | .i64 n => toString n
  | .isize n => toString n

inductive FilterOperator where
  | Lt | Le | Eq | Ne | Ge | Gt
deriving DecidableEq, Repr

def FilterOperator.as_str : FilterOperator → String
  | .Lt => "<"
  | .Le => "<="
  | .Eq => "="
  | .Ne => "!="
  | .Ge => ">="
  | .Gt => ">"

structure BooleanFilter where
  facet_name : String
  value : Bool
deriving DecidableEq, Repr

def BooleanFilter.display (f : BooleanFilter) : Except Unit String :=
  .ok ("\"" ++ escapeDebug f.facet_name ++ "\":" ++ toString f.value)

structure TagFilter where
  tag : String
deriving DecidableEq, Repr

def TagFilter.display (f : TagFilter) : Except Unit String :=
  .ok ("_tags:\"" ++ escapeDebug f.tag ++ "\"")

structure FacetFilter where
  facet_name : String
  value : String
deriving DecidableEq, Repr

def FacetFilter.display (f : FacetFilter) : Except Unit String :=
  .ok ("\"" ++ escapeDebug f.facet_name ++ "\":\"" ++ escapeDebug f.value ++ "\"")

/-- `i64::MAX`. -/
def I64_MAX : Int := 9223372036854775807

/-- `i64::MIN`. -/
def I64_MIN : Int := -9223372036854775808

/-- `ScoredFacetFilter`: all three fields are `pub` and there is no
constructor, so any `i64` score can be stored. -/
structure ScoredFacetFilter where
  facet_name : String
  value : String
  score : Int
deriving DecidableEq, Repr

/-- `Display for ScoredFacetFilter`: errors when `self.score > i64::MAX`
(a comparison between two `i64`, hence never true), otherwise renders
`"name":"value"<score=N>`. -/
def ScoredFacetFilter.display (f : ScoredFacetFilter) : Except Unit String :=
  if f.score > I64_MAX then .error ()
  else
    .ok ("\"" ++ escapeDebug f.facet_name ++ "\":\"" ++ escapeDebug f.value
      ++ "\"<score=" ++ toString f.score ++ ">")

structure RangeFilter where
  attribute_name : String
  lower_bound : Number
  upper_bound : Number
deriving DecidableEq, Repr

def RangeFilter.display (f : RangeFilter) : Except Unit String :=
  .ok ("\"" ++ escapeDebug f.attribute_name ++ "\": " ++ f.lower_bound.display
    ++ " TO " ++ f.upper_bound.display)

structure CmpFilter where
  attribute_name : String
  operator : FilterOperator
  value : Number
deriving DecidableEq, Repr

def CmpFilter.display (f : CmpFilter) : Except Unit String :=
  .ok ("\"" ++ escapeDebug f.attribute_name ++ "\" " ++ f.operator.as_str
    ++ " " ++ f.value.display)

/-- The closed set of `CommonFilterKind` leaf types. -/
inductive LeafFilter where
  | boolean (f : BooleanFilter)
  | tag (f : TagFilter)
  | facet (f : FacetFilter)
  | scoredFacet (f : ScoredFacetFilter)
  | range (f : RangeFilter)
  | cmp (f : CmpFilter)
deriving DecidableEq, Repr

def LeafFilter.display : LeafFilter → Except Unit String
  | .boolean f => f.display
  | .tag f => f.display
  | .facet f => f.display
  | .scoredFacet f => f.display
  | .range f => f.display
  | .cmp f => f.display

/-- `CommonFilter<T>`: an optional `NOT `-prefix around a leaf. -/
structure CommonFilter where
  invert : Bool
  filter : LeafFilter
deriving DecidableEq, Repr

def CommonFilter.display (f : CommonFilter) : Except Unit String :=
  match f.filter.display with
  | .error e => .error e
  | .ok s => .ok ((if f.invert then "NOT " else "") ++ s)

/-- The tail loop of `Separated`: separator then item, for each remaining
item. -/
def separatedRest {α : Type} (disp : α → Except Unit String) (sep : String) :
    List α → String → Except Unit String
  | [], acc => .ok acc
  | x :: xs, acc =>
    match disp x with
    | .error e => .error e
    | .ok s => separatedRest disp sep xs (acc ++ sep ++ s)

/-- `Display for Separated`: first item bare, the rest each preceded by the
separator; the empty slice renders as the empty string. -/
def separatedDisplay {α : Type} (disp : α → Except Unit String)
    (items : List α) (sep : String) : Except Unit String :=
  match items with
  | [] => .ok ""
  | x :: xs =>
    match disp x with
    | .error e => .error e
    | .ok s => separatedRest disp sep xs s

/-- `OrFilter<T>`: members joined by ` OR ` in insertion order. -/
structure OrFilter where
  filters : List CommonFilter
deriving DecidableEq, Repr

def OrFilter.display (f : OrFilter) : Except Unit String :=
  separatedDisplay CommonFilter.display f.filters " OR "

/-- The closed set of `AndFilterable` types: `OrFilter<T>` and
`CommonFilter<T>` (raw leaves are not `AndFilterable`). -/
inductive AndFilterable where
  | orGroup (f : OrFilter)
  | common (f : CommonFilter)
deriving DecidableEq, Repr

def AndFilterable.display : AndFilterable → Except Unit String
  | .orGroup f => f.display
  | .common f => f.display

/-- `AndFilter`: members joined by ` AND ` in insertion order. -/
structure AndFilter where
  filters : List AndFilterable
deriving DecidableEq, Repr

def AndFilter.display (f : AndFilter) : Except Unit String :=
  separatedDisplay AndFilterable.display f.filters " AND "

/-- `EmptyFilter` renders as the empty string. -/
def EmptyFilter.display : Except Unit String := .ok ""

/-! ## SHA-256, HMAC, hex and base64

Executable models of the `sha2`, `hmac`, `hex` and `base64` crates as used
by `ApiKey::generate_virtual_key`. Machine words are `Nat` reduced modulo
`2^32`. -/

def pow32 : Nat := 4294967296

def rotr32 (n x : Nat) : Nat := ((x >>> n) ||| (x <<< (32 - n))) % pow32

def smallSigma0 (x : Nat) : Nat := rotr32 7 x ^^^ rotr32 18 x ^^^ (x >>> 3)

def smallSigma1 (x : Nat) : Nat := rotr32 17 x ^^^ rotr32 19 x ^^^ (x >>> 10)

def bigSigma0 (x : Nat) : Nat := rotr32 2 x ^^^ rotr32 13 x ^^^ rotr32 22 x

def bigSigma1 (x : Nat) : Nat := rotr32 6 x ^^^ rotr32 11 x ^^^ rotr32 25 x

def shaCh (e f g : Nat) : Nat := (e &&& f) ^^^ ((e ^^^ 4294967295) &&& g)

def shaMaj (a b c : Nat) : Nat := (a &&& b) ^^^ (a &&& c) ^^^ (b &&& c)

def sha256K : List Nat :=
  [1116352408, 1899447441, 3049323471, 3921009573, 961987163,
   1508970993, 2453635748, 2870763221, 3624381080, 310598401,
   607225278, 1426881987, 1925078388, 2162078206, 2614888103,
   3248222580, 3835390401, 4022224774, 264347078, 604807628,
   770255983, 1249150122, 1555081692, 1996064986, 2554220882,
   2821834349, 2952996808, 3210313671, 3336571891, 3584528711,
   113926993, 338241895, 666307205, 773529912, 1294757372,
   1396182291, 1695183700, 1986661051, 2177026350, 2456956037,
   2730485921, 2820302411, 3259730800, 3345764771, 3516065817,
   3600352804, 4094571909, 275423344, 430227734, 506948616,
   659060556, 883997877, 958139571, 1322822218, 1537002063,
   1747873779, 1955562222, 2024104815, 2227730452, 2361852424,
   2428436474, 2756734187, 3204031479, 3329325298]

def sha256H0 : List Nat :=
  [1779033703, 3144134277, 1013904242,
   2773480762, 1359893119, 2600822924,
   528734635, 1541459225]

/-- Big-endian bytes of a value, fixed width in bytes. -/
def beBytes : Nat → Nat → List Nat
  | 0, _ => []
  | k + 1, v => beBytes k (v / 256) ++ [v % 256]

/-- SHA-256 message padding: `0x80`, zeros to 56 mod 64, then the bit
length as 8 big-endian bytes. -/
def sha256Pad (msg : List Nat) : List Nat :=
  let len := msg.length
  msg ++ [128] ++ List.replicate ((119 - len % 64) % 64) 0 ++ beBytes 8 (len * 8)

/-- Group bytes into big-endian 32-bit words. -/
def bytesToWords : List Nat → List Nat
  | b0 :: b1 :: b2 :: b3 :: rest =>
    (((b0 * 256 + b1) * 256 + b2) * 256 + b3) :: bytesToWords rest
  | _ => []

/-- Extend a 16-word block to the 64-word message schedule. -/
def extendSchedule : Nat → List Nat → List Nat
  | 0, w => w
  | k + 1, w =>
    let i := w.length
    let next := (smallSigma1 (w.getD (i - 2) 0) + w.getD (i - 7) 0
      + smallSigma0 (w.getD (i - 15) 0) + w.getD (i - 16) 0) % pow32
    extendSchedule k (w ++ [next])

/-- One compression round on the working variables `[a,b,c,d,e,f,g,h]`. -/
def sha256Round (st : List Nat) (kw : Nat × Nat) : List Nat :=
  match st with
  | [a, b, c, d, e, f, g, h] =>
    let t1 := (h + bigSigma1 e + shaCh e f g + kw.1 + kw.2) % pow32
    let t2 := (bigSigma0 a + shaMaj a b c) % pow32
    [(t1 + t2) % pow32, a, b, c, (d + t1) % pow32, e, f, g]
  | _ => st

/-- Compress one 16-word block into the state. -/
def sha256Compress (state block : List Nat) : List Nat :=
  let w := extendSchedule 48 block
  let st := (sha256K.zip w).foldl sha256Round state
  (state.zip st).map (fun p => (p.1 + p.2) % pow32)

/-- Fold the compression over consecutive 16-word blocks. -/
def sha256Process (state : List Nat) : List Nat → List Nat
  | w0 :: w1 :: w2 :: w3 :: w4 :: w5 :: w6 :: w7 ::
    w8 :: w9 :: w10 :: w11 :: w12 :: w13 :: w14 :: w15 :: rest =>
    sha256Process
      (sha256Compress state
        [w0, w1, w2, w3, w4, w5, w6, w7, w8, w9, w10, w11, w12, w13, w14, w15])
      rest
  | _ => state

/-- SHA-256 of a byte sequence, as 32 bytes. -/
def sha256 (msg : List Nat) : List Nat :=
  ((sha256Process sha256H0 (bytesToWords (sha256Pad msg))).map (beBytes 4)).flatten

/-- HMAC-SHA256 (block size 64). -/
def hmacSha256 (key msg : List Nat) : List Nat :=
  let k0 := if key.length > 64 then sha256 key else key
  let kp := k0 ++ List.replicate (64 - k0.length) 0
  sha256 ((kp.map (fun b => b ^^^ 92)) ++ sha256 ((kp.map (fun b => b ^^^ 54)) ++ msg))

/-- `hex::encode`: lowercase hex of a byte sequence. -/
def hexLowerDigit (n : Nat) : Char := "0123456789abcdef".data.getD n (Char.ofNat 48)

def hexEncode (bytes : List Nat) : String :=
  String.mk ((bytes.map (fun b => [hexLowerDigit (b / 16), hexLowerDigit (b % 16)])).flatten)

/-- `base64::encode`: the standard alphabet with `=` padding. -/
def base64Char (n : Nat) : Char :=
  "ABCDEFGHIJKLMNOPQRSTUVWXYZabcdefghijklmnopqrstuvwxyz0123456789+/".data.getD n
    (Char.ofNat 65)

def base64Encode : List Nat → String
  | [] => ""
  | [b0] => String.mk [base64Char (b0 / 4), base64Char (b0 % 4 * 16)] ++ "=="
  | [b0, b1] =>
    String.mk [base64Char (b0 / 4), base64Char (b0 % 4 * 16 + b1 / 16),
      base64Char (b1 % 16 * 4)] ++ "="
  | b0 :: b1 :: b2 :: rest =>
    String.mk [base64Char (b0 / 4), base64Char (b0 % 4 * 16 + b1 / 16),
      base64Char (b1 % 16 * 4 + b2 / 64), base64Char (b2 % 64)] ++ base64Encode rest

/-! ## `serde_urlencoded` (application/x-www-form-urlencoded) -/

/-- Bytes serialized verbatim by `form_urlencoded`: ASCII alphanumerics and
`*`, `-`, `.`, `_`. -/
def isUrlUnreserved (b : Nat) : Bool :=
  (48 ≤ b && b ≤ 57) || (65 ≤ b && b ≤ 90) || (97 ≤ b && b ≤ 122)
    || b == 42 || b == 45 || b == 46 || b == 95

def percentHexDigit (n : Nat) : Char := "0123456789ABCDEF".data.getD n (Char.ofNat 48)

def formUrlencodeByte (b : Nat) : String :=
  if b == 32 then "+"
  else if isUrlUnreserved b then String.singleton (Char.ofNat b)
  else "%" ++ String.mk [percentHexDigit (b / 16), percentHexDigit (b % 16)]

def formUrlencode (s : String) : String :=
  String.join ((strBytes s).map formUrlencodeByte)

/-- Render key/value pairs as a query string: `k=v` joined by `&`. -/
def encodePairs (pairs : List (String × String)) : String :=
  String.intercalate "&" (pairs.map (fun p => formUrlencode p.1 ++ "=" ++ formUrlencode p.2))

/-! ## Request query types (src/request.rs) -/

/-- `PartialUpdateQuery`: serde skips `create_if_not_exists` (renamed
`createIfNotExists`) when it is false (`skip_serializing_if = "Not::not"`). -/
structure PartialUpdateQuery where
  create_if_not_exists : Bool
deriving DecidableEq, Repr

/-- `Default for PartialUpdateQuery`. -/
def PartialUpdateQuery.default : PartialUpdateQuery :=
  { create_if_not_exists := true }

/-- The key/value pairs serde emits for a `PartialUpdateQuery`. -/
def PartialUpdateQuery.queryPairs (q : PartialUpdateQuery) : List (String × String) :=
  if q.create_if_not_exists then [("createIfNotExists", "true")] else []

/-- The serialized query string of a `PartialUpdateQuery`. -/
def PartialUpdateQuery.encode (q : PartialUpdateQuery) : String :=
  encodePairs q.queryPairs

/-- `VirtualKeyRestrictions`: optional `userToken` and optional
`validUntil`; a `DateTime<Utc>` is modelled by its epoch-second timestamp,
which is all the serializer reads (`dt.timestamp()`). -/
structure VirtualKeyRestrictions where
  user_token : Option String
  valid_until : Option Int
deriving DecidableEq, Repr

/-- `Default for VirtualKeyRestrictions`: both fields absent. -/
def VirtualKeyRestrictions.default : VirtualKeyRestrictions :=
  { user_token := none, valid_until := none }

/-- `serde_urlencoded::to_string` of a `VirtualKeyRestrictions`: fields in
declaration order, absent fields omitted, expiry as epoch seconds. -/
def VirtualKeyRestrictions.encode (r : VirtualKeyRestrictions) : String :=
  encodePairs
    ((match r.user_token with
      | some t => [("userToken", t)]
      | none => [])
      ++ (match r.valid_until with
          | some ts => [("validUntil", toString ts)]
          | none => []))

/-! ## ApiKey and scoped-key derivation (src/lib.rs, src/key.rs) -/

structure ApiKey where
  key : String
deriving DecidableEq, Repr

/-- `Formatter::debug_tuple(name).field(..).finish()`: `name(field, ...)`. -/
def debugTupleFmt (name : String) (fields : List String) : String :=
  name ++ "(" ++ String.intercalate ", " fields ++ ")"

/-- `Debug for str`: the string quoted, debug-escaped. -/
def strDebugFmt (s : String) : String := "\"" ++ escapeDebug s ++ "\""

/-- `Debug for ApiKey`: `f.debug_tuple("ApiKey").field(&"***").finish()` —
the secret is never read. -/
def ApiKey.debugFmt (_ : ApiKey) : String :=
  debugTupleFmt "ApiKey" [strDebugFmt "***"]

/-- The canonical encoding `generate_virtual_key` signs: the urlencoded
restrictions, with the literal `userToken=` substituted when that encoding
is empty. -/
def canonicalRestrictions (r : VirtualKeyRestrictions) : String :=
  if r.encode.isEmpty then "userToken=" else r.encode

/-- `ApiKey::generate_virtual_key` (src/key.rs): HMAC-SHA256 the canonical
encoding with the parent key's bytes, hex the digest, append the same
canonical encoding, base64 the result. -/
def ApiKey.generate_virtual_key (k : ApiKey) (restrictions : VirtualKeyRestrictions) :
    ApiKey :=
  let restr := canonicalRestrictions restrictions
  let macBytes := hmacSha256 (strBytes k.key) (strBytes restr)
  let key := hexEncode macBytes
  let key := key ++ restr
  ApiKey.mk (base64Encode (strBytes key))

/-! ## Helper lemmas -/

/-- Joining strings with a separator, in order: the specification-side
meaning of `Separated`. -/
def joinSep (sep : String) : List String → String
  | [] => ""
  | [s] => s
  | s :: rest => s ++ sep ++ joinSep sep rest

theorem foldl_append_pull (sep : String) :
    ∀ (ss : List String) (a b : String),
      ss.foldl (fun x t => x ++ sep ++ t) (a ++ b)
        = a ++ ss.foldl (fun x t => x ++ sep ++ t) b
  | [], _, _ => rfl
  | t :: ts, a, b => by
    simp only [List.foldl_cons]
    rw [String.append_assoc a b sep, String.append_assoc a (b ++ sep) t]
    exact foldl_append_pull sep ts a (b ++ sep ++ t)

theorem joinSep_cons_eq_foldl (sep : String) :
    ∀ (ss : List String) (s : String),
      joinSep sep (s :: ss) = ss.foldl (fun x t => x ++ sep ++ t) s
  | [], _ => rfl
  | t :: ts, s => by
    simp only [joinSep, List.foldl_cons]
    rw [joinSep_cons_eq_foldl sep ts t, foldl_append_pull sep ts (s ++ sep) t]

theorem separatedRest_ok {α : Type} (disp : α → Except Unit String) (sep : String) :
    ∀ (items : List α) (ss : List String) (acc : String),
      items.map disp = ss.map Except.ok →
      separatedRest disp sep items acc
        = .ok (ss.foldl (fun x t => x ++ sep ++ t) acc)
  | [], [], _, _ => rfl
  | [], _ :: _, _, h => by simp at h
  | _ :: _, [], _, h => by simp at h
  | x :: xs, s :: ss, acc, h => by
    simp only [List.map_cons, List.cons.injEq] at h
    obtain ⟨hx, hxs⟩ := h
    simp only [separatedRest, hx, List.foldl_cons]
    exact separatedRest_ok disp sep xs ss (acc ++ sep ++ s) hxs

/-- If every member renders, `Separated` renders the members joined by the
separator, in order. -/
theorem separatedDisplay_ok {α : Type} (disp : α → Except Unit String) (sep : String) :
    ∀ (items : List α) (ss : List String),
      items.map disp = ss.map Except.ok →
      separatedDisplay disp items sep = .ok (joinSep sep ss)
  | [], [], _ => rfl
  | [], _ :: _, h => by simp at h
  | _ :: _, [], h => by simp at h
  | x :: xs, s :: ss, h => by
    simp only [List.map_cons, List.cons.injEq] at h
    obtain ⟨hx, hxs⟩ := h
    simp only [separatedDisplay, hx]
    rw [separatedRest_ok disp sep xs ss s hxs, joinSep_cons_eq_foldl]

theorem retryLoop_all_retryable {O : Type} (g : Nat → Except Error (Option O)) :
    ∀ l : List Nat, (∀ h ∈ l, g h = .ok none) →
      retryLoop g l = .error .Timeout ∧ attemptedSlots g l = l
  | [], _ => ⟨rfl, rfl⟩
  | h :: t, hall => by
    have hh : g h = .ok none := hall h (by simp)
    have ih := retryLoop_all_retryable g t (fun x hx => hall x (by simp [hx]))
    simp only [retryLoop, attemptedSlots, hh]
    exact ⟨ih.1, by rw [ih.2]⟩

theorem retryLoop_stops {O : Type} (g : Nat → Except Error (Option O)) :
    ∀ (pre : List Nat) (h : Nat) (rest : List Nat),
      (∀ x ∈ pre, g x = .ok none) →
      (∀ o, g h = .ok (some o) →
        retryLoop g (pre ++ h :: rest) = .ok o ∧
        attemptedSlots g (pre ++ h :: rest) = pre ++ [h]) ∧
      (∀ e, g h = .error e →
        retryLoop g (pre ++ h :: rest) = .error e ∧
        attemptedSlots g (pre ++ h :: rest) = pre ++ [h])
  | [], h, rest, _ => by
    constructor
    · intro o ho
      simp [retryLoop, attemptedSlots, ho]
    · intro e he
      simp [retryLoop, attemptedSlots, he]
  | p :: pre, h, rest, hall => by
    have hp : g p = .ok none := hall p (by simp)
    have ih := retryLoop_stops g pre h rest (fun x hx => hall x (by simp [hx]))
    constructor
    · intro o ho
      simp only [List.cons_append, retryLoop, attemptedSlots, hp, List.append_eq]
      exact ⟨(ih.1 o ho).1, by rw [(ih.1 o ho).2]⟩
    · intro e he
      simp only [List.cons_append, retryLoop, attemptedSlots, hp, List.append_eq]
      exact ⟨(ih.2 e he).1, by rw [(ih.2 e he).2]⟩

/-! ## Claim theorems -/

/-- C1: when the shuffled backup order is any permutation of
`HOST_FALLBACK_LIST` and the per-attempt function yields the retryable
outcome `Ok(None)` on every invocation, `retry_with` invokes it once per
host in the fallback order — `1 + |HOST_FALLBACK_LIST| = 4` attempts in
total — and then returns the `Timeout` error. -/
theorem dispatch_all_retryable_times_out {O : Type} (app_id route : String)
    (shuffled : List Nat) (f : String → Except Error (Option O))
    (hperm : shuffled.Perm HOST_FALLBACK_LIST)
    (hf : ∀ url, f url = .ok none) :
    retry_with app_id route shuffled f = .error .Timeout ∧
    attemptedSlots (fun slot => f (attemptUrl app_id route slot))
      (dispatchOrder shuffled) = dispatchOrder shuffled ∧
    (attemptedSlots (fun slot => f (attemptUrl app_id route slot))
      (dispatchOrder shuffled)).length = 1 + HOST_FALLBACK_LIST.length := by
  have base := retryLoop_all_retryable
    (fun slot => f (attemptUrl app_id route slot))
    (dispatchOrder shuffled) (fun h _ => hf _)
  refine ⟨base.1, base.2, ?_⟩
  rw [base.2]
  simp only [dispatchOrder, List.length_cons, hperm.length_eq]
  omega

/-- C1 witness: a concrete dispatch where every attempt is retryable makes
exactly 4 attempts, one per slot in order, and fails with `Timeout`. -/
theorem dispatch_all_retryable_times_out_witness :
    retry_with "MyApp" "indexes/idx/query" [2, 3, 1]
      (fun _ => (.ok none : Except Error (Option Unit))) = .error .Timeout ∧
    attemptedSlots
      (fun slot => (fun _ => (.ok none : Except Error (Option Unit)))
        (attemptUrl "MyApp" "indexes/idx/query" slot))
      (dispatchOrder [2, 3, 1]) = dispatchOrder [2, 3, 1] ∧
    (attemptedSlots
      (fun slot => (fun _ => (.ok none : Except Error (Option Unit)))
        (attemptUrl "MyApp" "indexes/idx/query" slot))
      (dispatchOrder [2, 3, 1])).length = 1 + HOST_FALLBACK_LIST.length :=
  dispatch_all_retryable_times_out "MyApp" "indexes/idx/query" [2, 3, 1]
    (fun _ => (.ok none : Except Error (Option Unit)))
    (by decide) (fun _ => rfl)

/-- C3: `retry_with` returns the value of the first attempt that yields
`Ok(Some(_))` without invoking the per-attempt function on any later host,
and propagates the error of the first attempt that yields `Err(_)` without
invoking the per-attempt function on any later host; if the first attempt
is fatal, exactly one attempt is issued. -/
theorem dispatch_short_circuits {O : Type} (app_id route : String)
    (shuffled : List Nat) (f : String → Except Error (Option O))
    (pre : List Nat) (slot : Nat) (rest : List Nat)
    (horder : dispatchOrder shuffled = pre ++ slot :: rest)
    (hpre : ∀ x ∈ pre, f (attemptUrl app_id route x) = .ok none) :
    (∀ o, f (attemptUrl app_id route slot) = .ok (some o) →
      retry_with app_id route shuffled f = .ok o ∧
      attemptedSlots (fun s => f (attemptUrl app_id route s))
        (dispatchOrder shuffled) = pre ++ [slot]) ∧
    (∀ e, f (attemptUrl app_id route slot) = .error e →
      retry_with app_id route shuffled f = .error e ∧
      attemptedSlots (fun s => f (attemptUrl app_id route s))
        (dispatchOrder shuffled) = pre ++ [slot] ∧
      (pre = [] →
        (attemptedSlots (fun s => f (attemptUrl app_id route s))
          (dispatchOrder shuffled)).length = 1)) := by
  have base := retryLoop_stops (fun s => f (attemptUrl app_id route s)) pre slot rest hpre
  constructor
  · intro o ho
    have h1 := base.1 o ho
    refine ⟨?_, ?_⟩
    · show retryLoop (fun s => f (attemptUrl app_id route s)) (dispatchOrder shuffled) = .ok o
      rw [horder]; exact h1.1
    · rw [horder]; exact h1.2
  · intro e he
    have h2 := base.2 e he
    refine ⟨?_, ?_, ?_⟩
    · show retryLoop (fun s => f (attemptUrl app_id route s)) (dispatchOrder shuffled) = .error e
      rw [horder]; exact h2.1
    · rw [horder]; exact h2.2
    · intro hp
      rw [horder, h2.2, hp]
      rfl

/-- C3 witness: a per-attempt function that is fatal on the very first URL
(here with an `IndexNotFound` error) makes the dispatcher return that exact
error after a single attempt on slot 0. -/
theorem dispatch_short_circuits_witness :
    retry_with "MyApp" "indexes/idx" [1, 2, 3]
      (fun _ => (.error (.IndexNotFound "idx") : Except Error (Option Unit)))
      = .error (.IndexNotFound "idx") ∧
    attemptedSlots
      (fun s => (fun _ => (.error (.IndexNotFound "idx") : Except Error (Option Unit)))
        (attemptUrl "MyApp" "indexes/idx" s))
      (dispatchOrder [1, 2, 3]) = [] ++ [0] ∧
    (attemptedSlots
      (fun s => (fun _ => (.error (.IndexNotFound "idx") : Except Error (Option Unit)))
        (attemptUrl "MyApp" "indexes/idx" s))
      (dispatchOrder [1, 2, 3])).length = 1 := by
  have h := (dispatch_short_circuits "MyApp" "indexes/idx" [1, 2, 3]
    (fun _ => (.error (.IndexNotFound "idx") : Except Error (Option Unit)))
    [] 0 [1, 2, 3] rfl (by intro x hx; simp at hx)).2
    (.IndexNotFound "idx") rfl
  exact ⟨h.1, h.2.1, h.2.2 rfl⟩

/-- C4: for every outcome of the random shuffle (any permutation of
`HOST_FALLBACK_LIST`), the attempted slot sequence starts with slot 0 (the
primary host), its remaining slots are a permutation of the backup set
`{1, 2, 3}`, and the whole sequence has no duplicates and no omissions. -/
theorem dispatch_order_primary_then_backups (shuffled : List Nat)
    (hperm : shuffled.Perm HOST_FALLBACK_LIST) :
    (dispatchOrder shuffled).head? = some 0 ∧
    (dispatchOrder shuffled).tail.Perm [1, 2, 3] ∧
    (dispatchOrder shuffled).Nodup ∧
    (∀ x, x ∈ dispatchOrder shuffled ↔ x = 0 ∨ x ∈ [1, 2, 3]) := by
  have hmem : ∀ x, x ∈ shuffled ↔ x ∈ [1, 2, 3] := fun x => hperm.mem_iff
  refine ⟨rfl, hperm, ?_, ?_⟩
  · rw [dispatchOrder, List.nodup_cons]
    constructor
    · intro h0
      have := (hmem 0).mp h0
      simp at this
    · exact hperm.nodup_iff.mpr (by decide)
  · intro x
    rw [dispatchOrder, List.mem_cons, hmem x]

/-- C4 witness: a concrete shuffle outcome `[3, 1, 2]` gives the attempt
order `[0, 3, 1, 2]`: primary first, backups a duplicate-free permutation
of `{1, 2, 3}`. -/
theorem dispatch_order_primary_then_backups_witness :
    (dispatchOrder [3, 1, 2]).head? = some 0 ∧
    (dispatchOrder [3, 1, 2]).tail.Perm [1, 2, 3] ∧
    (dispatchOrder [3, 1, 2]).Nodup ∧
    (∀ x, x ∈ dispatchOrder [3, 1, 2] ↔ x = 0 ∨ x ∈ [1, 2, 3]) :=
  dispatch_order_primary_then_backups [3, 1, 2] (by decide)

/-- C2: `check_response` applies its rules in order: retryable on a
transport timeout; fatal `RequestError` on any other transport failure;
retryable on any 5xx status; fatal `IndexNotFound(name)` on 404 when an
index name was supplied; fatal `RequestError` on 400, carrying the decoded
`{message}` body or, if that decode fails, the decode failure itself; fatal
`RequestError` carrying a decoded `{message, status}` body (same fallback)
on any other 4xx; and success handing the body back on any 2xx status. -/
theorem check_response_classification (e : ReqwestError) (resp : Response)
    (index : Option String) (name : String) :
    (e.isTimeout = true → check_response (.error e) index = .ok none) ∧
    (e.isTimeout = false →
      check_response (.error e) index = .error (.RequestError (.reqwest e))) ∧
    (500 ≤ resp.status → resp.status ≤ 599 →
      check_response (.ok resp) index = .ok none) ∧
    (resp.status = 404 →
      check_response (.ok resp) (some name) = .error (.IndexNotFound name)) ∧
    (resp.status = 400 →
      check_response (.ok resp) index = .error (Error.bad_request resp) ∧
      Error.bad_request resp
        = .RequestError (match decodeBadRequestError resp.body with
            | .ok b => .badRequest b
            | .error err => err)) ∧
    (400 ≤ resp.status → resp.status ≤ 499 → resp.status ≠ 400 →
      (resp.status = 404 → index = none) →
      check_response (.ok resp) index = .error (Error.unexpected resp) ∧
      Error.unexpected resp
        = .RequestError (match decodeUnexpectedResponseError resp.body with
            | .ok u => .unexpectedResponse u
            | .error err => err)) ∧
    (200 ≤ resp.status → resp.status ≤ 299 →
      check_response (.ok resp) index = .ok (some resp)) := by
  refine ⟨?_, ?_, ?_, ?_, ?_, ?_, ?_⟩
  · intro ht; simp [check_response, ht]
  · intro ht; simp [check_response, ht]
  · intro h1 h2
    have hs : statusIsServerError resp.status = true := by
      simp only [statusIsServerError, Bool.and_eq_true, decide_eq_true_eq]
      omega
    simp [check_response, hs]
  · intro h404
    have hs : statusIsServerError 404 = false := by decide
    simp [check_response, h404, hs]
  · intro h400
    have hs : statusIsServerError 400 = false := by decide
    constructor
    · cases index <;> simp [check_response, h400, hs]
    · cases hdec : decodeBadRequestError resp.body <;>
        simp [Error.bad_request, hdec]
  · intro h1 h2 hne400 h404none
    have hs : statusIsServerError resp.status = false := by
      rw [← Bool.not_eq_true]
      simp only [statusIsServerError, Bool.and_eq_true, decide_eq_true_eq]
      omega
    have hc : statusIsClientError resp.status = true := by
      simp only [statusIsClientError, Bool.and_eq_true, decide_eq_true_eq]
      omega
    constructor
    · cases hidx : index with
      | none => simp [check_response, hs, hc, hne400]
      | some n =>
        have h404 : resp.status ≠ 404 := by
          intro h
          have := h404none h
          rw [hidx] at this
          exact Option.noConfusion this
        simp [check_response, hs, hc, hne400, h404]
    · cases hdec : decodeUnexpectedResponseError resp.body <;>
        simp [Error.unexpected, hdec]
  · intro h1 h2
    have hs : statusIsServerError resp.status = false := by
      rw [← Bool.not_eq_true]
      simp only [statusIsServerError, Bool.and_eq_true, decide_eq_true_eq]
      omega
    have hc : statusIsClientError resp.status = false := by
      rw [← Bool.not_eq_true]
      simp only [statusIsClientError, Bool.and_eq_true, decide_eq_true_eq]
      omega
    have h404 : resp.status ≠ 404 := by omega
    have h400 : resp.status ≠ 400 := by omega
    cases index <;> simp [check_response, hs, hc, h404, h400]

/-- C2 witness: each classification rule evaluated at a concrete input: a
transport timeout, a non-timeout transport failure, a 503, a 404 with an
index name, a 400 with a well-formed and with a malformed body, a 429, and
a 200. -/
theorem check_response_classification_witness :
    check_response (.error ⟨true, "connection timed out"⟩) none
      = (.ok none : Except Error (Option Response)) ∧
    check_response (.error ⟨false, "connection refused"⟩) none
      = .error (.RequestError (.reqwest ⟨false, "connection refused"⟩)) ∧
    check_response (.ok ⟨503, none⟩) none = .ok none ∧
    check_response (.ok ⟨404, none⟩) (some "idx") = .error (.IndexNotFound "idx") ∧
    check_response (.ok ⟨400, some (.obj [("message", .str "bad params")])⟩) none
      = .error (.RequestError (.badRequest ⟨"bad params"⟩)) ∧
    check_response (.ok ⟨400, none⟩) none
      = .error (.RequestError (.jsonDecode "body was not valid JSON")) ∧
    check_response
        (.ok ⟨429, some (.obj [("message", .str "too many"), ("status", .num 429)])⟩) none
      = .error (.RequestError (.unexpectedResponse ⟨"too many", 429⟩)) ∧
    check_response (.ok ⟨200, some (.obj [])⟩) none = .ok (some ⟨200, some (.obj [])⟩) := by
  refine ⟨?_, ?_, ?_, ?_, ?_, ?_, ?_, ?_⟩
  · exact (check_response_classification ⟨true, "connection timed out"⟩
      ⟨200, none⟩ none "x").1 rfl
  · exact (check_response_classification ⟨false, "connection refused"⟩
      ⟨200, none⟩ none "x").2.1 rfl
  · exact (check_response_classification ⟨true, ""⟩ ⟨503, none⟩ none "x").2.2.1
      (by decide) (by decide)
  · exact (check_response_classification ⟨true, ""⟩ ⟨404, none⟩ (some "idx")
      "idx").2.2.2.1 rfl
  · exact ((check_response_classification ⟨true, ""⟩
      ⟨400, some (.obj [("message", .str "bad params")])⟩ none "x").2.2.2.2.1 rfl).1
  · exact ((check_response_classification ⟨true, ""⟩ ⟨400, none⟩ none
      "x").2.2.2.2.1 rfl).1
  · exact ((check_response_classification ⟨true, ""⟩
      ⟨429, some (.obj [("message", .str "too many"), ("status", .num 429)])⟩ none
      "x").2.2.2.2.2.1 (by decide) (by decide) (by decide) (by intro h; simp at h)).1
  · exact (check_response_classification ⟨true, ""⟩ ⟨200, some (.obj [])⟩ none
      "x").2.2.2.2.2.2 (by decide) (by decide)

/-- C5 counterexample: a `ScoredFacetFilter` with the out-of-range score
`-1` is obtainable (the fields are public and there is no validating
constructor) and even serializes successfully, contradicting the claim that
construction rejects scores outside `[0, i64::MAX]` and that no such value
can be obtained. -/
theorem scored_facet_negative_score_obtainable :
    ScoredFacetFilter.display { facet_name := "brand", value := "nike", score := -1 }
      = .ok "\"brand\":\"nike\"<score=-1>" := rfl

/-- C5 amended: `ScoredFacetFilter` construction is unchecked — a value
with any `i64` score, including `-1`, can be obtained — and serialization
also succeeds for every `i64` score, because the `Display` guard
`score > i64::MAX` can never hold for an `i64`; out-of-range scores are
rejected only by the service at request time. -/
theorem scored_facet_score_never_rejected (name value : String) (s : Int)
    (_hlo : I64_MIN ≤ s) (hhi : s ≤ I64_MAX) :
    ScoredFacetFilter.display { facet_name := name, value := value, score := s }
      = .ok ("\"" ++ escapeDebug name ++ "\":\"" ++ escapeDebug value
        ++ "\"<score=" ++ toString s ++ ">") := by
  rw [ScoredFacetFilter.display, if_neg (by simp only [I64_MAX] at hhi ⊢; omega)]

/-- C5 amended witness: the negative score `-1` is accepted end to end. -/
theorem scored_facet_score_never_rejected_witness :
    I64_MIN ≤ (-1 : Int) ∧ (-1 : Int) ≤ I64_MAX ∧
    ScoredFacetFilter.display { facet_name := "color", value := "red", score := -1 }
      = .ok ("\"" ++ escapeDebug "color" ++ "\":\"" ++ escapeDebug "red"
        ++ "\"<score=" ++ toString (-1 : Int) ++ ">") :=
  ⟨by decide, by decide,
    scored_facet_score_never_rejected "color" "red" (-1) (by decide) (by decide)⟩

/-- C7: resolving a host with slot `None` and slot `Some(0)` both yield
exactly the tenant id followed by `.algolia.net` with no slot suffix; a
non-zero slot `n` yields the `-n` suffix before the domain; and in general
the rendered hostname is the tenant, the optional `-dsn` marker, the
optional `-<slot>` suffix, and the fixed domain suffix, in that order, with
no failure mode (`Host.display` is total). -/
theorem host_resolution (T : String) (n : Nat) (hn : n ≠ 0) :
    (Host.with_backup T none).display = T ++ ".algolia.net" ∧
    (Host.with_backup T (some 0)).display = T ++ ".algolia.net" ∧
    (Host.with_backup T (some n)).display = T ++ "-" ++ toString n ++ ".algolia.net" ∧
    (∀ h : Host, h.display
      = h.app_id ++ (if h.dsn then "-dsn" else "")
        ++ (match h.backup_number with
            | some m => "-" ++ toString m.val
            | none => "")
        ++ ".algolia.net") := by
  refine ⟨?_, ?_, ?_, fun h => rfl⟩
  · simp [Host.with_backup, Host.display, String.append_empty, String.append_assoc]
  · simp [Host.with_backup, Host.display, String.append_empty, String.append_assoc]
  · have hb : Host.with_backup T (some n) = ⟨T, false, some ⟨n, hn⟩⟩ := by
      simp [Host.with_backup, hn]
    rw [hb]
    show T ++ "" ++ ("-" ++ toString n) ++ ".algolia.net"
      = T ++ "-" ++ toString n ++ ".algolia.net"
    rw [String.append_empty, ← String.append_assoc]

/-- C7 witness: slots `None`, `Some(0)` and `Some(2)` for a concrete
tenant. -/
theorem host_resolution_witness :
    (Host.with_backup "MyApp" none).display = "MyApp" ++ ".algolia.net" ∧
    (Host.with_backup "MyApp" (some 0)).display = "MyApp" ++ ".algolia.net" ∧
    (Host.with_backup "MyApp" (some 2)).display
      = "MyApp" ++ "-" ++ toString 2 ++ ".algolia.net" :=
  ⟨(host_resolution "MyApp" 2 (by decide)).1,
   (host_resolution "MyApp" 2 (by decide)).2.1,
   (host_resolution "MyApp" 2 (by decide)).2.2.1⟩

/-- C8: filter rendering matches the textual grammar: the facet-equality
filter `color`/`red` renders exactly `"color":"red"`; the scored-facet
filter `brand`/`nike`/42 renders `"brand":"nike"<score=42>`; a NOT-wrapped
leaf renders as an optional leading `NOT ` before the inner leaf; OR-group
and AND-group members are joined by ` OR ` and ` AND ` respectively in
insertion order; and empty OR-groups, empty AND-groups and the empty filter
all render as the empty string. -/
theorem filter_rendering_grammar :
    FacetFilter.display { facet_name := "color", value := "red" }
      = .ok "\"color\":\"red\"" ∧
    ScoredFacetFilter.display { facet_name := "brand", value := "nike", score := 42 }
      = .ok "\"brand\":\"nike\"<score=42>" ∧
    (∀ (inv : Bool) (leaf : LeafFilter) (s : String), leaf.display = .ok s →
      CommonFilter.display { invert := inv, filter := leaf }
        = .ok ((if inv then "NOT " else "") ++ s)) ∧
    (∀ (fs : List CommonFilter) (ss : List String),
      fs.map CommonFilter.display = ss.map Except.ok →
      OrFilter.display { filters := fs } = .ok (joinSep " OR " ss)) ∧
    (∀ (fs : List AndFilterable) (ss : List String),
      fs.map AndFilterable.display = ss.map Except.ok →
      AndFilter.display { filters := fs } = .ok (joinSep " AND " ss)) ∧
    OrFilter.display { filters := [] } = .ok "" ∧
    AndFilter.display { filters := [] } = .ok "" ∧
    EmptyFilter.display = .ok "" := by
  refine ⟨rfl, rfl, ?_, ?_, ?_, rfl, rfl, rfl⟩
  · intro inv leaf s hs
    simp [CommonFilter.display, hs]
  · intro fs ss h
    exact separatedDisplay_ok CommonFilter.display " OR " fs ss h
  · intro fs ss h
    exact separatedDisplay_ok AndFilterable.display " AND " fs ss h

/-- C8 witness: a concrete AND-group of one two-member OR-group and one
inverted tag leaf renders with both joins and the `NOT ` prefix in
insertion order. -/
theorem filter_rendering_grammar_witness :
    CommonFilter.display
      { invert := true, filter := .tag { tag := "x" } } = .ok ("NOT " ++ "_tags:\"x\"") ∧
    OrFilter.display
      { filters := [{ invert := false, filter := .facet { facet_name := "a", value := "1" } },
                    { invert := false, filter := .facet { facet_name := "a", value := "2" } }] }
      = .ok (joinSep " OR " ["\"a\":\"1\"", "\"a\":\"2\""]) ∧
    AndFilter.display
      { filters := [.orGroup { filters :=
          [{ invert := false, filter := .facet { facet_name := "a", value := "1" } },
           { invert := false, filter := .facet { facet_name := "a", value := "2" } }] },
         .common { invert := true, filter := .tag { tag := "x" } }] }
      = .ok (joinSep " AND " ["\"a\":\"1\" OR \"a\":\"2\"", "NOT _tags:\"x\""]) := by
  refine ⟨?_, ?_, ?_⟩
  · exact (filter_rendering_grammar.2.2.1 true (.tag { tag := "x" }) "_tags:\"x\"" rfl)
  · exact (filter_rendering_grammar.2.2.2.1 _ ["\"a\":\"1\"", "\"a\":\"2\""] rfl)
  · exact (filter_rendering_grammar.2.2.2.2.1 _
      ["\"a\":\"1\" OR \"a\":\"2\"", "NOT _tags:\"x\""] rfl)

/-- C9: the Debug representation of every `ApiKey` — including keys derived
via `generate_virtual_key` — is the fixed redacted placeholder
`ApiKey("***")`; it is identical for any two keys and reveals nothing about
the secret string. -/
theorem api_key_debug_redacted :
    (∀ k : ApiKey, k.debugFmt = "ApiKey(\"***\")") ∧
    (∀ (k : ApiKey) (r : VirtualKeyRestrictions),
      (k.generate_virtual_key r).debugFmt = "ApiKey(\"***\")") ∧
    (∀ k₁ k₂ : ApiKey, k₁.debugFmt = k₂.debugFmt) :=
  ⟨fun _ => rfl, fun _ _ => rfl, fun _ _ => rfl⟩

/-- C10: serializing a `PartialUpdateQuery` emits `createIfNotExists=true`
exactly when `create_if_not_exists` is true and emits nothing at all when
it is false (an explicit false is never transmitted), and the `Default`
instance has `create_if_not_exists = true`. -/
theorem partial_update_query_serialization :
    (∀ q : PartialUpdateQuery,
      q.encode = if q.create_if_not_exists then "createIfNotExists=true" else "") ∧
    (∀ q : PartialUpdateQuery,
      q.queryPairs
        = if q.create_if_not_exists then [("createIfNotExists", "true")] else []) ∧
    PartialUpdateQuery.default.create_if_not_exists = true := by
  refine ⟨?_, ?_, rfl⟩
  · intro q
    obtain ⟨b⟩ := q
    cases b
    · rfl
    · exact rfl
  · intro q
    obtain ⟨b⟩ := q
    cases b <;> rfl

set_option maxRecDepth 200000 in
/-- C6: `generate_virtual_key` returns
`base64(hex(HMAC-SHA256(parent key bytes, enc)) ++ enc)` where `enc` is the
canonical urlencoded restriction string, replaced by the literal
`userToken=` when empty; the string appended after the hex digest is
exactly the string that was hashed; the function is deterministic; and the
parent key `Example Key` with the empty restriction set derives exactly the
documented base64 value. -/
theorem generate_virtual_key_spec :
    (∀ (k : ApiKey) (r : VirtualKeyRestrictions),
      k.generate_virtual_key r
        = ApiKey.mk (base64Encode (strBytes
            (hexEncode (hmacSha256 (strBytes k.key)
                (strBytes (canonicalRestrictions r)))
              ++ canonicalRestrictions r)))) ∧
    (∀ (k : ApiKey) (r₁ r₂ : VirtualKeyRestrictions), r₁ = r₂ →
      k.generate_virtual_key r₁ = k.generate_virtual_key r₂) ∧
    canonicalRestrictions VirtualKeyRestrictions.default = "userToken=" ∧
    (ApiKey.mk "Example Key").generate_virtual_key VirtualKeyRestrictions.default
      = ApiKey.mk "MDBlNTFhZmY1Y2IxM2Q4NDk3OWM2ZGQ0YTEzODAyODE4NDE4ZThjM2U4Mjg1YjNiZGY1YjIxNGM2N2JmODE0Y3VzZXJUb2tlbj0=" := by
  refine ⟨fun k r => rfl, fun k r₁ r₂ h => by rw [h], rfl, by decide⟩

/-- C6 witness: determinism instantiated on the empty restriction set. -/
theorem generate_virtual_key_spec_witness :
    (ApiKey.mk "Example Key").generate_virtual_key VirtualKeyRestrictions.default
      = (ApiKey.mk "Example Key").generate_virtual_key VirtualKeyRestrictions.default :=
  generate_virtual_key_spec.2.1 (ApiKey.mk "Example Key")
    VirtualKeyRestrictions.default VirtualKeyRestrictions.default rfl

end AlgoliaRs
